import Mathlib

/-!
Shallow embedding of the `genbids` package (files `src/genbids/bids_model.py`
and `src/genbids/bids_writer.py`) of the mindlogger-graphomotor-data
repository, together with proofs about the BIDS entity model, the builder
and the merge writer.

Conventions of the embedding:
* A filesystem path is a list of path segments (`PyPath`).
* `pandas.DataFrame` values are modelled by `Table` (a header row and data
  rows of strings); `to_csv(sep="\t", index=False)` is the serialization
  `tableToTsv` (with `index=False` only the header and the data rows are
  emitted, which is exactly what `Table` holds).
* Python dicts of strings are association lists (`List (String × String)`)
  with `dict.update` semantics given by `dictUpdate`.
* The filesystem is a finite map from paths to file contents plus a set of
  directories (`FS`).  File contents are stored structurally
  (`FileContent.json` / `FileContent.table` / `FileContent.raw`); reading a
  file with the wrong decoder (e.g. `json.load` on a non-JSON file) is an
  error, as in Python.
* Python exceptions are modelled with `Except`; because Python exceptions
  do not undo earlier filesystem mutations, every error carries the
  filesystem state at the moment the exception is raised
  (`Except (WriteError × FS) _`).
-/

set_option maxRecDepth 4096

/-- A filesystem path, as its list of path segments. -/
abbrev PyPath := List String

/-- Model of a `pandas.DataFrame` holding strings: a header row naming the
columns and a list of data rows. -/
structure Table where
  header : List String
  rows : List (List String)
deriving DecidableEq, Repr

/-- Serialization of a `Table` as `DataFrame.to_csv(path, sep="\t", index=False)`
produces it: header line then data lines, tab-separated, newline-terminated,
no index column. -/
def tableToTsv (t : Table) : String :=
  String.intercalate "\t" t.header ++ "\n"
    ++ String.join (t.rows.map (fun r => String.intercalate "\t" r ++ "\n"))

/-- Concatenation of two tables as `pd.concat([existing, data])` followed by
`to_csv` yields it when both tables have the same columns (the only case the
writer produces): the rows are appended. -/
def tableConcat (t u : Table) : Table :=
  { header := t.header, rows := t.rows ++ u.rows }

/-- Lookup in a Python dict modelled as an association list: the first
binding of the key wins. -/
def dictGet : List (String × String) → String → Option String
  | [], _ => none
  | (k', v) :: rest, k => if k' = k then some v else dictGet rest k

/-- Setting one key in a Python dict modelled as an association list:
an existing binding is replaced in place, a new key is appended at the end
(CPython `dict` insertion-order semantics). -/
def dictSet (obj : List (String × String)) (k v : String) : List (String × String) :=
  if (dictGet obj k).isSome then
    obj.map (fun kv => if kv.1 = k then (k, v) else kv)
  else
    obj ++ [(k, v)]

/-- Models `obj.update(data)` for Python dicts modelled as association lists:
every binding of `data`, in order, is set in `obj`. -/
def dictUpdate (obj data : List (String × String)) : List (String × String) :=
  data.foldl (fun o kv => dictSet o kv.1 kv.2) obj

/-- First of two optional values, as Python `dict` lookup falling back to
an older binding: the left value when present, otherwise the right one. -/
def orFirst (a b : Option String) : Option String :=
  match a with
  | some v => some v
  | none => b

/-- Keys of a Python dict are pairwise distinct. -/
def nodupKeys (l : List (String × String)) : Prop :=
  (l.map Prod.fst).Nodup

instance (l : List (String × String)) : Decidable (nodupKeys l) := by
  unfold nodupKeys; infer_instance

/-- Model of `BidsEntity` (src/genbids/bids_model.py, lines 129-153): a frozen
dataclass with no `__post_init__`, so construction performs no validation of
the payload fields. -/
structure BidsEntity where
  subject_id : String
  datatype : String
  task_name : String
  suffix : String
  session_id : Option String := none
  metadata : Option (List (String × String)) := none
  file_path : Option PyPath := none
  tabular_data : Option Table := none
  run_id : Option String := none
deriving DecidableEq, Repr

/-- Models `BidsEntity.is_file_resource`: `self.file_path is not None`. -/
def BidsEntity.is_file_resource (e : BidsEntity) : Bool :=
  e.file_path.isSome

/-- Models `BidsEntity.is_tabular_data`: `self.tabular_data is not None`. -/
def BidsEntity.is_tabular_data (e : BidsEntity) : Bool :=
  e.tabular_data.isSome

/-- Holds when exactly one of the two payload predicates of an entity is
true. -/
def exactlyOnePayload (e : BidsEntity) : Prop :=
  (e.is_file_resource = true ∧ e.is_tabular_data = false)
    ∨ (e.is_file_resource = false ∧ e.is_tabular_data = true)

/-- Model of `BidsConfig` (src/genbids/bids_model.py, lines 13-28). -/
structure BidsConfig where
  subject_formatter : BidsEntity → String
  task_name_formatter : BidsEntity → String
  session_formatter : BidsEntity → String
  entity_formatter : BidsEntity → String
  merge_participants_tsv : Bool := true
  merge_dataset_description : Bool := true
  include_sessions : Bool := false
  default_session_name : Option String := none

/-- Models `BidsConfig.relative_entity_dir`: `Path(subject)[/session]/datatype`. -/
def BidsConfig.relative_entity_dir (cfg : BidsConfig) (entity : BidsEntity) : PyPath :=
  [cfg.subject_formatter entity]
    ++ (if cfg.include_sessions then [cfg.session_formatter entity] else [])
    ++ [entity.datatype]

/-- Models `BidsConfig.relative_entity_path`: the entity directory followed by the
formatted entity file name. -/
def BidsConfig.relative_entity_path (cfg : BidsConfig) (entity : BidsEntity) : PyPath :=
  cfg.relative_entity_dir entity ++ [cfg.entity_formatter entity]

/-- Splitting a list of characters at every dot (the pieces between dots, in
order; an empty input gives one empty piece), as `str.split(".")` does. -/
def splitOnDotChars : List Char → List (List Char)
  | [] => [[]]
  | c :: cs =>
    match splitOnDotChars cs with
    | [] => if c = '.' then [[], []] else [[c]]
    | y :: ys => if c = '.' then [] :: y :: ys else (c :: y) :: ys

/-- Stem of a file name as `pathlib.PurePath.stem` computes it: the name
without its last extension; a name with no dot, or only a leading dot, is its
own stem. -/
def pyStem (name : String) : String :=
  let parts := (splitOnDotChars name.data).map String.mk
  match parts with
  | [] => name
  | [_] => name
  | first :: rest =>
    if first = "" ∧ rest.length = 1 then name
    else String.intercalate "." parts.dropLast

/-- Models `PurePath.with_suffix(newExt)` on a file name: replace the last extension
by `newExt`. -/
def pyWithSuffix (name newExt : String) : String :=
  pyStem name ++ newExt

/-- Models `BidsConfig.relative_entity_metadata_path`:
`relative_entity_path(entity).with_suffix(".json")`. -/
def BidsConfig.relative_entity_metadata_path (cfg : BidsConfig) (entity : BidsEntity) : PyPath :=
  let p := cfg.relative_entity_path entity
  p.dropLast ++ [pyWithSuffix (p.getLast!) ".json"]

/-- Models `BidsConfig.default_subject_formatter()`. -/
def BidsConfig.default_subject_formatter : BidsEntity → String :=
  fun entity => "sub-" ++ entity.subject_id

/-- Models `BidsConfig.default_task_name_formatter()`. -/
def BidsConfig.default_task_name_formatter : BidsEntity → String :=
  fun entity => "task-" ++ entity.task_name

/-- Models `BidsConfig.default_session_formatter()`. -/
def BidsConfig.default_session_formatter : BidsEntity → String :=
  fun entity => "ses-" ++ entity.session_id.getD ""

/-- Models `BidsConfig.default_entity_formatter()` (src/genbids/bids_model.py, lines
72-92): joins `sub-<id>`, `task-<name>`, optionally `run-<id>`, and the
entity's suffix with underscores (the session part is commented out in the
source). -/
def BidsConfig.default_entity_formatter : BidsEntity → String :=
  fun entity =>
    let name_parts := ["sub-" ++ entity.subject_id]
    let name_parts := name_parts ++ ["task-" ++ entity.task_name]
    let name_parts :=
      match entity.run_id with
      | some r => name_parts ++ ["run-" ++ r]
      | none => name_parts
    let name_parts := name_parts ++ [entity.suffix]
    String.intercalate "_" name_parts

/-- Models `BidsConfig.default()`. -/
def BidsConfig.default : BidsConfig :=
  { subject_formatter := BidsConfig.default_subject_formatter
    task_name_formatter := BidsConfig.default_task_name_formatter
    session_formatter := BidsConfig.default_session_formatter
    entity_formatter := BidsConfig.default_entity_formatter }

/-- Model of `BidsModel` (src/genbids/bids_model.py, lines 95-126). -/
structure BidsModel where
  entities : List BidsEntity
  dataset_description : List (String × String)
deriving DecidableEq

/-- First-occurrence deduplication of a list of strings; models
`list(set(xs))`, whose element order CPython leaves unspecified — no claim
depends on the order, only on the underlying set. -/
def dedupFirst (l : List String) : List String :=
  go l []
where
  go : List String → List String → List String
  | [], _ => []
  | x :: xs, seen => if seen.contains x then go xs seen else x :: go xs (x :: seen)

/-- Models `BidsModel.subject_ids`: `list(set(entity.subject_id for ...))`. -/
def BidsModel.subject_ids (m : BidsModel) : List String :=
  dedupFirst (m.entities.map (fun e => e.subject_id))

/-- Resource argument of `BidsBuilder.add`: the source dispatches on
`isinstance(resource, Path)` / `isinstance(resource, pd.DataFrame)` (any other
type raises, a case outside the two kinds upstream callers produce and hence
outside this embedding). -/
inductive BidsResource where
  | file (p : PyPath)
  | table (t : Table)
deriving DecidableEq

/-- The `BidsEntity` that one `BidsBuilder.add` call appends
(src/genbids/bids_model.py, lines 186-226): a file resource populates
`file_path`, a tabular resource populates `tabular_data`. -/
def mkEntityFromAdd (subject_id datatype task_name suffix : String)
    (resource : BidsResource) (run_id session_id : Option String)
    (metadata : Option (List (String × String))) : BidsEntity :=
  match resource with
  | .file p =>
    { subject_id := subject_id, datatype := datatype, task_name := task_name,
      suffix := suffix, session_id := session_id, file_path := some p,
      metadata := metadata, run_id := run_id }
  | .table t =>
    { subject_id := subject_id, datatype := datatype, task_name := task_name,
      suffix := suffix, session_id := session_id, tabular_data := some t,
      metadata := metadata, run_id := run_id }

/-!
CPython evaluates the default values of `BidsBuilder.__init__`'s parameters
`entities: List[BidsEntity] = []` and `dataset_description: Dict[str, str] = {}`
once, at function definition time; every no-argument construction of a
`BidsBuilder` then binds `self._entities` / `self._dataset_description` to
those same two shared objects.  The heap below makes that aliasing explicit:
builders hold references (indices) into a heap of list/dict objects, and the
objects at index 0 are the two shared defaults.
-/

/-- Heap of Python list and dict objects referenced by builders. -/
structure BuilderHeap where
  lists : List (List BidsEntity)
  dicts : List (List (String × String))
deriving DecidableEq

/-- A `BidsBuilder` object: references to its entity-list object and its
description-dict object. -/
structure BidsBuilderRef where
  entitiesRef : Nat
  descRef : Nat
deriving DecidableEq

/-- The heap at module-load time: the two default argument objects of
`BidsBuilder.__init__` (an empty list and an empty dict), shared by every
no-argument construction. -/
def builderHeap0 : BuilderHeap :=
  { lists := [[]], dicts := [[]] }

/-- Models `BidsBuilder()` with no arguments: binds the shared default objects. -/
def builderInitDefault : BidsBuilderRef :=
  { entitiesRef := 0, descRef := 0 }

/-- Models `BidsBuilder(entities, dataset_description)` with caller-supplied fresh
objects: allocates them on the heap. -/
def builderInitWith (h : BuilderHeap) (entities : List BidsEntity)
    (dataset_description : List (String × String)) : BuilderHeap × BidsBuilderRef :=
  ({ lists := h.lists ++ [entities], dicts := h.dicts ++ [dataset_description] },
   { entitiesRef := h.lists.length, descRef := h.dicts.length })

/-- Models `BidsBuilder.add(...)`: appends one entity to the builder's entity-list
object (mutating the referenced heap object in place). -/
def BuilderHeap.add (h : BuilderHeap) (b : BidsBuilderRef)
    (subject_id datatype task_name suffix : String) (resource : BidsResource)
    (run_id session_id : Option String)
    (metadata : Option (List (String × String))) : BuilderHeap :=
  { h with
    lists := h.lists.set b.entitiesRef
      ((h.lists.getD b.entitiesRef [])
        ++ [mkEntityFromAdd subject_id datatype task_name suffix resource
              run_id session_id metadata]) }

/-- Models `BidsBuilder.build()`: returns `BidsModel(self._entities,
self._dataset_description)` — the model wraps the builder's current
objects. -/
def BuilderHeap.build (h : BuilderHeap) (b : BidsBuilderRef) : BidsModel :=
  { entities := h.lists.getD b.entitiesRef [],
    dataset_description := h.dicts.getD b.descRef [] }

/-- Merge strategy enumeration (src/genbids/bids_writer.py, lines 21-36).
Per its docstring: "NO_MERGE: Do not merge, exit with error on conflict.
OVERWRITE: Overwrite existing files on conflict.  KEEP: Keep existing files
on conflict." -/
inductive MergeStrategy where
  | UNKNOWN_MERGE
  | NO_MERGE
  | OVERWRITE
  | KEEP
  | RENAME_ENTITIES
  | NEW_SESSION
deriving DecidableEq, Repr

/-- Contents of one file in the modelled filesystem. -/
inductive FileContent where
  | json (obj : List (String × String))
  | table (t : Table)
  | raw (data : String)
deriving DecidableEq

/-- The modelled filesystem: files (a finite path-to-content map as an
association list, most recent write first) and the set of directories. -/
structure FS where
  files : List (PyPath × FileContent)
  dirs : List PyPath
deriving DecidableEq

/-- The empty filesystem. -/
def emptyFS : FS := { files := [], dirs := [] }

/-- Content of the file at a path, when one exists. -/
def FS.readFile (fs : FS) (p : PyPath) : Option FileContent :=
  go fs.files
where
  go : List (PyPath × FileContent) → Option FileContent
  | [] => none
  | (q, c) :: rest => if q = p then some c else go rest

/-- All prefixes of a path, from the empty path up to the path itself. -/
def pathPrefixes : PyPath → List PyPath
  | [] => [[]]
  | x :: xs => [] :: (pathPrefixes xs).map (fun q => x :: q)

/-- Models `path.mkdir(parents=True, exist_ok=True)`: the path and all its ancestors
become directories. -/
def FS.mkdirParents (fs : FS) (p : PyPath) : FS :=
  { fs with dirs := pathPrefixes p ++ fs.dirs }

/-- Models `path.exists()`: a file or a directory is present at the path. -/
def FS.existsPath (fs : FS) (p : PyPath) : Bool :=
  (fs.readFile p).isSome || fs.dirs.any (fun q => decide (q = p))

/-- Whether `a` is a proper prefix of `b` (so `b` lies strictly inside the
directory `a`). -/
def properPrefixOf : PyPath → PyPath → Bool
  | [], [] => false
  | [], _ :: _ => true
  | _ :: _, [] => false
  | a :: as, b :: bs => decide (a = b) && properPrefixOf as bs

/-- Models `len(list(p.iterdir())) > 0`: some file or directory lies strictly below
the directory `p`. -/
def FS.nonEmptyDir (fs : FS) (p : PyPath) : Bool :=
  fs.files.any (fun qc => properPrefixOf p qc.1) || fs.dirs.any (fun q => properPrefixOf p q)

/-- Errors raised by the writer; each carries what the corresponding Python
exception message names. -/
inductive WriteError where
  | fileExists (p : PyPath)
  | fileNotFound (p : PyPath)
  | isADirectory (p : PyPath)
  | jsonReadFailed (p : PyPath)
  | tsvReadFailed (p : PyPath)
  | notImplemented (msg : String)
  | unknownMergeStrategy (s : MergeStrategy)
  | mergeStrategyRequired
  | rootNotEmpty
  | noModel
  | unknownEntityType
deriving DecidableEq

/-- Result of a filesystem-mutating step: the new filesystem, or the raised
error together with the filesystem at the moment it was raised (Python
exceptions do not undo earlier writes). -/
abbrev WriteResult := Except (WriteError × FS) FS

/-- Models `open(p, "w")` followed by writing `c`: requires the parent directory to
exist and the path not to be a directory, then replaces the file's content. -/
def FS.writeFile (fs : FS) (p : PyPath) (c : FileContent) : WriteResult :=
  if fs.dirs.any (fun q => decide (q = p)) then
    .error (.isADirectory p, fs)
  else if (fs.readFile p.dropLast).isSome || fs.dirs.any (fun q => decide (q = p.dropLast)) then
    .ok { fs with files := (p, c) :: fs.files.filter (fun qc => decide (qc.1 ≠ p)) }
  else
    .error (.fileNotFound p, fs)

/-- Models `shutil.copy2(src, dst)`: read the source file's bytes and write them to
the destination. -/
def copyFile (fs : FS) (src dst : PyPath) : WriteResult :=
  match fs.readFile src with
  | some c => fs.writeFile dst c
  | none => .error (.fileNotFound src, fs)

/-- Truthiness of the optional `entity.metadata` dict, as
`if entity.metadata:` tests it: `None` and the empty dict are falsy. -/
def metadataTruthy : Option (List (String × String)) → Bool
  | none => false
  | some l => !l.isEmpty

/-- Models `BidsWriter._merge_json(path, data)` (src/genbids/bids_writer.py, lines
88-96): if the path exists, load the existing JSON object and
`existing.update(data)`; then write the (merged) object back. -/
def merge_json (fs : FS) (p : PyPath) (data : List (String × String)) : WriteResult :=
  if fs.existsPath p then
    match fs.readFile p with
    | some (.json obj) => fs.writeFile p (.json (dictUpdate obj data))
    | _ => .error (.jsonReadFailed p, fs)
  else
    fs.writeFile p (.json data)

/-- Models `BidsWriter._merge_tsv(path, data)` (src/genbids/bids_writer.py, lines
98-103): if the path exists, read the existing table and concatenate the new
rows after it; then write the result back tab-separated without an index. -/
def merge_tsv (fs : FS) (p : PyPath) (data : Table) : WriteResult :=
  if fs.existsPath p then
    match fs.readFile p with
    | some (.table t) => fs.writeFile p (.table (tableConcat t data))
    | _ => .error (.tsvReadFailed p, fs)
  else
    fs.writeFile p (.table data)

/-- Models `BidsWriter._ensure_directory_path(path, is_dir=False)`
(src/genbids/bids_writer.py, lines 105-112). -/
def ensure_directory_path (fs : FS) (p : PyPath) (isDir : Bool := false) : FS :=
  if isDir then
    if fs.existsPath p then fs else fs.mkdirParents p
  else
    if fs.existsPath p.dropLast then fs else fs.mkdirParents p.dropLast

/-- Message of the `NotImplementedError` raised for `RENAME_ENTITIES`. -/
def renameEntitiesMsg : String := "RENAME_ENTITIES merge strategy not implemented."

/-- Message of the `NotImplementedError` raised for `NEW_SESSION`. -/
def newSessionMsg : String := "New session merge strategy not implemented."

/-- Models `BidsWriter._merge_entity(entity, write_op)` (src/genbids/bids_writer.py,
lines 114-141): write one entity's payload respecting the merge strategy.
The `if/elif` chain is translated branch for branch; note that a `NO_MERGE`
strategy whose destination does not exist matches none of the branches and
falls into the final `else`, which raises
`ValueError(f"Unknown merge strategy ...")`. -/
def merge_entity (root : PyPath) (cfg : BidsConfig) (strat : MergeStrategy)
    (fs : FS) (entity : BidsEntity) (writeOp : PyPath → FS → WriteResult) : WriteResult :=
  let expectedFilepath := root ++ cfg.relative_entity_path entity
  if strat = MergeStrategy.NO_MERGE ∧ fs.existsPath expectedFilepath = true then
    .error (.fileExists expectedFilepath, fs)
  else if strat = MergeStrategy.OVERWRITE then
    let fs := ensure_directory_path fs expectedFilepath
    match writeOp expectedFilepath fs with
    | .error e => .error e
    | .ok fs =>
      if metadataTruthy entity.metadata then
        merge_json fs (root ++ cfg.relative_entity_metadata_path entity)
          (entity.metadata.getD [])
      else
        .ok fs
  else if strat = MergeStrategy.KEEP then
    .ok fs
  else if strat = MergeStrategy.RENAME_ENTITIES then
    .error (.notImplemented renameEntitiesMsg, fs)
  else if strat = MergeStrategy.NEW_SESSION then
    .error (.notImplemented newSessionMsg, fs)
  else
    .error (.unknownMergeStrategy strat, fs)

/-- State of a `BidsWriter` (src/genbids/bids_writer.py, lines 52-67): the
root path, the merge strategy, an optional prebuilt model, an optional
builder (by its current entity list and description dict), and the path
configuration. -/
structure BidsWriter where
  bids_root : PyPath
  entity_merge_strategy : MergeStrategy
  bids : Option BidsModel := none
  builder : Option (List BidsEntity × List (String × String)) := none
  config : BidsConfig := BidsConfig.default

/-- Lines 145-153 of `BidsWriter.write`: fail when neither a model nor a
builder is present, otherwise use the model or build one from the builder. -/
def BidsWriter.resolveBids (w : BidsWriter) : Except WriteError BidsModel :=
  match w.bids with
  | some m => .ok m
  | none =>
    match w.builder with
    | some b => .ok { entities := b.1, dataset_description := b.2 }
    | none => .error .noModel

/-- Lines 156-163 of `BidsWriter.write`: create the root directory (with
parents) and, when it is non-empty, reject the sentinel and `NO_MERGE`
strategies. -/
def confirmRoot (root : PyPath) (strat : MergeStrategy) (fs : FS) : WriteResult :=
  let fs := fs.mkdirParents root
  if fs.nonEmptyDir root then
    if strat = MergeStrategy.UNKNOWN_MERGE then
      .error (.mergeStrategyRequired, fs)
    else if strat = MergeStrategy.NO_MERGE then
      .error (.rootNotEmpty, fs)
    else
      .ok fs
  else
    .ok fs

/-- Lines 165-169 of `BidsWriter.write`: merge `dataset_description.json`
unless it exists and description merging is disabled. -/
def writeDatasetDescription (root : PyPath) (cfg : BidsConfig) (bids : BidsModel)
    (fs : FS) : WriteResult :=
  let p := root ++ ["dataset_description.json"]
  if fs.existsPath p = false ∨ cfg.merge_dataset_description = true then
    merge_json fs p bids.dataset_description
  else
    .ok fs

/-- Lines 171-177 of `BidsWriter.write`: merge `participants.tsv` (a
single-column table of the model's subject ids) unless it exists and
participants merging is disabled. -/
def writeParticipants (root : PyPath) (cfg : BidsConfig) (bids : BidsModel)
    (fs : FS) : WriteResult :=
  let p := root ++ ["participants.tsv"]
  if fs.existsPath p = false ∨ cfg.merge_participants_tsv = true then
    merge_tsv fs p { header := ["participant"], rows := bids.subject_ids.map (fun s => [s]) }
  else
    .ok fs

/-- Lines 180-192 of `BidsWriter.write`: write one entity, dispatching on its
payload kind; a file payload is copied with `shutil.copy2`, a tabular payload
is serialized with `to_csv(sep="\t", index=False)`, anything else raises. -/
def writeEntity (root : PyPath) (cfg : BidsConfig) (strat : MergeStrategy)
    (fs : FS) (entity : BidsEntity) : WriteResult :=
  match entity.file_path with
  | some fp => merge_entity root cfg strat fs entity (fun path fs => copyFile fs fp path)
  | none =>
    match entity.tabular_data with
    | some tb => merge_entity root cfg strat fs entity (fun path fs => fs.writeFile path (.table tb))
    | none => .error (.unknownEntityType, fs)

/-- The part of `BidsWriter.write` after the root check: the
`dataset_description.json` merge, the `participants.tsv` merge, the entity
loop, and the final `return True`. -/
def writeAfterRootCheck (root : PyPath) (cfg : BidsConfig) (strat : MergeStrategy)
    (bids : BidsModel) (fs : FS) : Except (WriteError × FS) (FS × Bool) :=
  match writeDatasetDescription root cfg bids fs with
  | .error e => .error e
  | .ok fs =>
    match writeParticipants root cfg bids fs with
    | .error e => .error e
    | .ok fs =>
      match bids.entities.foldlM (fun fs e => writeEntity root cfg strat fs e) fs with
      | .error e => .error e
      | .ok fs => .ok (fs, true)

/-- Models `BidsWriter.write()` (src/genbids/bids_writer.py, lines 143-193). -/
def BidsWriter.write (w : BidsWriter) (fs : FS) : Except (WriteError × FS) (FS × Bool) :=
  match w.resolveBids with
  | .error e => .error (e, fs)
  | .ok bids =>
    match confirmRoot w.bids_root w.entity_merge_strategy fs with
    | .error e => .error e
    | .ok fs => writeAfterRootCheck w.bids_root w.config w.entity_merge_strategy bids fs

/-- Models `BidsWriter.__exit__(exc_type, exc_value, traceback)`
(src/genbids/bids_writer.py, lines 73-80): the three exception arguments are
ignored and `self.write()` is called unconditionally, its result returned. -/
def BidsWriter.exitCM (w : BidsWriter) (_excType _excValue _tb : Option String)
    (fs : FS) : Except (WriteError × FS) (FS × Bool) :=
  w.write fs

/-- Value of the key `k` in the JSON object stored at path `p`, when a JSON
file is stored there. -/
def jsonLookup (fs : FS) (p : PyPath) (k : String) : Option String :=
  match fs.readFile p with
  | some (.json obj) => dictGet obj k
  | _ => none

/-- Boolean value a finished write reports: `true` for every successful
result (the source's `return True`), and vacuously `true` for errors. -/
def returnsTrue : Except (WriteError × FS) (FS × Bool) → Bool
  | .ok (_, b) => b
  | .error _ => true

/-- Table payload of the `NO_MERGE` scenario entity. -/
def t1 : Table := { header := ["value"], rows := [["7"]] }

/-- Tabular entity used for the `NO_MERGE` scenario. -/
def e1 : BidsEntity :=
  { subject_id := "S01", datatype := "beh", task_name := "draw", suffix := ".tsv",
    tabular_data := some t1 }

/-- Payload writer (`to_csv`) closure for `e1`. -/
def op1 : PyPath → FS → WriteResult := fun p fs => fs.writeFile p (.table t1)

/-- Writer holding a one-entity model under the `NO_MERGE` strategy. -/
def w1 : BidsWriter :=
  { bids_root := ["bids"], entity_merge_strategy := .NO_MERGE,
    bids := some { entities := [e1], dataset_description := [] } }

/-- Table payload used by the both-payloads entity. -/
def t2 : Table := { header := ["value"], rows := [["8"]] }

/-- Entity constructed with both a file reference and tabular data set: the
dataclass accepts it (no validation runs). -/
def eBoth : BidsEntity :=
  { subject_id := "S01", datatype := "beh", task_name := "draw", suffix := ".tsv",
    file_path := some ["exports", "draw.csv"], tabular_data := some t2 }

/-- Table payload for the builder-aliasing scenario. -/
def t3 : Table := { header := ["value"], rows := [["9"]] }

/-- Table of the end-to-end `OVERWRITE` scenario: two data rows. -/
def t4 : Table := { header := ["col_a", "col_b"], rows := [["r1a", "r1b"], ["r2a", "r2b"]] }

/-- Tabular entity of the end-to-end scenario: subject "S01", datatype "beh",
task "draw", suffix ".tsv". -/
def e4 : BidsEntity :=
  { subject_id := "S01", datatype := "beh", task_name := "draw", suffix := ".tsv",
    tabular_data := some t4 }

/-- Writer of the end-to-end scenario: `OVERWRITE` into root `root` with the
default configuration. -/
def w4 : BidsWriter :=
  { bids_root := ["root"], entity_merge_strategy := .OVERWRITE,
    bids := some { entities := [e4], dataset_description := [] } }

/-- Table payload of the repeated-metadata-merge scenario. -/
def t7 : Table := { header := ["v"], rows := [["1"]] }

/-- Entity of the repeated-metadata-merge scenario, parameterized by its
metadata dict; placement is fixed, so both writes target the same path. -/
def e7 (m : List (String × String)) : BidsEntity :=
  { subject_id := "S01", datatype := "beh", task_name := "draw", suffix := "beh.tsv",
    tabular_data := some t7, metadata := some m }

/-- Payload writer (`to_csv`) closure for `e7`. -/
def op7 : PyPath → FS → WriteResult := fun p fs => fs.writeFile p (.table t7)

/-- Destination path of `e7` under the default configuration in root
`bids`. -/
def entityPath7 : PyPath := ["bids", "sub-S01", "beh", "sub-S01_task-draw_beh.tsv"]

/-- JSON sidecar path of `e7` (same stem, `.json` extension). -/
def sidecar7 : PyPath := ["bids", "sub-S01", "beh", "sub-S01_task-draw_beh.json"]

/-- Directories present after the destination directory of `e7` has been
created. -/
def dirs7 : List PyPath := [[], ["bids"], ["bids", "sub-S01"], ["bids", "sub-S01", "beh"]]

/-- Table payload of the `RENAME_ENTITIES` witness entity. -/
def t8 : Table := { header := ["value"], rows := [["1"]] }

/-- Tabular entity of the `RENAME_ENTITIES` witness scenario. -/
def e8w : BidsEntity :=
  { subject_id := "S08", datatype := "beh", task_name := "draw", suffix := ".tsv",
    tabular_data := some t8 }

/-- Writer of the root-check witness scenario: sentinel strategy, empty
model. -/
def w6w : BidsWriter :=
  { bids_root := ["bids"], entity_merge_strategy := .UNKNOWN_MERGE,
    bids := some { entities := [], dataset_description := [] } }

/-- Filesystem of the root-check witness scenario: the root exists and
already contains one file. -/
def fs6w : FS :=
  { files := [(["bids", "old.txt"], .raw "hi")], dirs := [[], ["bids"]] }

theorem orFirst_none_right (a : Option String) : orFirst a none = a := by
  cases a <;> rfl

theorem dictGet_append (l1 l2 : List (String × String)) (k : String) :
    dictGet (l1 ++ l2) k = orFirst (dictGet l1 k) (dictGet l2 k) := by
  induction l1 with
  | nil => simp [dictGet, orFirst]
  | cons hd tl ih =>
    obtain ⟨k', v⟩ := hd
    by_cases h : k' = k <;> simp [dictGet, h, ih, orFirst]

theorem dictGet_replaceKey (o : List (String × String)) (k v k' : String) :
    dictGet (o.map (fun kv => if kv.1 = k then (k, v) else kv)) k'
      = if k' = k then (if (dictGet o k).isSome then some v else none)
        else dictGet o k' := by
  induction o with
  | nil => simp [dictGet]
  | cons hd tl ih =>
    obtain ⟨a, b⟩ := hd
    simp only [List.map_cons]
    by_cases hak : a = k
    · subst hak
      rw [if_pos rfl]
      by_cases hk : k' = a
      · subst hk
        simp [dictGet]
      · simp [dictGet, hk, Ne.symm hk, ih]
    · rw [if_neg hak]
      by_cases hak' : a = k'
      · subst hak'
        simp [dictGet, hak]
      · simp [dictGet, hak, hak', ih]

theorem dictGet_dictSet (o : List (String × String)) (k v k' : String) :
    dictGet (dictSet o k v) k' = if k' = k then some v else dictGet o k' := by
  unfold dictSet
  by_cases h : (dictGet o k).isSome
  · simp [h, dictGet_replaceKey]
  · rw [if_neg h, dictGet_append]
    by_cases hk : k' = k
    · subst hk
      simp [Option.not_isSome_iff_eq_none.mp h, dictGet, orFirst]
    · simp [dictGet, Ne.symm hk, hk, orFirst_none_right]

theorem dictGet_eq_none_of_not_mem (l : List (String × String)) (k : String)
    (h : k ∉ l.map Prod.fst) : dictGet l k = none := by
  induction l with
  | nil => rfl
  | cons hd tl ih =>
    obtain ⟨a, b⟩ := hd
    simp only [List.map_cons, List.mem_cons, not_or] at h
    simp [dictGet, Ne.symm h.1, ih h.2]

theorem dictGet_dictUpdate (obj data : List (String × String))
    (h : nodupKeys data) (k : String) :
    dictGet (dictUpdate obj data) k = orFirst (dictGet data k) (dictGet obj k) := by
  induction data generalizing obj with
  | nil => simp [dictUpdate, dictGet, orFirst]
  | cons hd tl ih =>
    obtain ⟨k1, v1⟩ := hd
    unfold nodupKeys at h
    simp only [List.map_cons, List.nodup_cons] at h
    have hstep : dictUpdate obj ((k1, v1) :: tl) = dictUpdate (dictSet obj k1 v1) tl := rfl
    rw [hstep, ih _ h.2, dictGet_dictSet]
    by_cases hk : k1 = k
    · subst hk
      simp [dictGet, dictGet_eq_none_of_not_mem tl k1 h.1, orFirst]
    · simp [dictGet, hk, Ne.symm hk]

theorem merge_entity_eq_overwrite (root : PyPath) (cfg : BidsConfig) (fs : FS)
    (e : BidsEntity) (op : PyPath → FS → WriteResult) :
    merge_entity root cfg .OVERWRITE fs e op =
      match op (root ++ cfg.relative_entity_path e)
          (ensure_directory_path fs (root ++ cfg.relative_entity_path e)) with
      | .error err => .error err
      | .ok fs2 =>
        if metadataTruthy e.metadata then
          merge_json fs2 (root ++ cfg.relative_entity_metadata_path e) (e.metadata.getD [])
        else
          .ok fs2 := by
  simp [merge_entity]

theorem e7_path (m : List (String × String)) :
    ["bids"] ++ BidsConfig.default.relative_entity_path (e7 m) = entityPath7 := rfl

theorem e7_mpath (m : List (String × String)) :
    ["bids"] ++ BidsConfig.default.relative_entity_metadata_path (e7 m) = sidecar7 := rfl

theorem ensure7_empty :
    ensure_directory_path emptyFS entityPath7 = { files := [], dirs := dirs7 } := rfl

theorem op7_fresh : op7 entityPath7 { files := [], dirs := dirs7 }
    = .ok { files := [(entityPath7, FileContent.table t7)], dirs := dirs7 } := rfl

theorem mj7_fresh (kv : String × String) (m : List (String × String)) :
    merge_json { files := [(entityPath7, FileContent.table t7)], dirs := dirs7 } sidecar7 (kv :: m)
      = .ok { files := [(sidecar7, FileContent.json (kv :: m)), (entityPath7, FileContent.table t7)],
              dirs := dirs7 } := rfl

theorem ensure7_again (c : List (String × String)) :
    ensure_directory_path
        { files := [(sidecar7, FileContent.json c), (entityPath7, FileContent.table t7)], dirs := dirs7 }
        entityPath7
      = { files := [(sidecar7, FileContent.json c), (entityPath7, FileContent.table t7)], dirs := dirs7 } := rfl

theorem op7_again (c : List (String × String)) :
    op7 entityPath7 { files := [(sidecar7, FileContent.json c), (entityPath7, FileContent.table t7)], dirs := dirs7 }
      = .ok { files := [(entityPath7, FileContent.table t7), (sidecar7, FileContent.json c)], dirs := dirs7 } := rfl

theorem mj7_again (c : List (String × String)) (kv : String × String) (m : List (String × String)) :
    merge_json { files := [(entityPath7, FileContent.table t7), (sidecar7, FileContent.json c)], dirs := dirs7 }
        sidecar7 (kv :: m)
      = .ok { files := [(sidecar7, FileContent.json (dictUpdate c (kv :: m))), (entityPath7, FileContent.table t7)],
              dirs := dirs7 } := rfl

theorem ensure7_nosc :
    ensure_directory_path { files := [(entityPath7, FileContent.table t7)], dirs := dirs7 } entityPath7
      = { files := [(entityPath7, FileContent.table t7)], dirs := dirs7 } := rfl

theorem op7_nosc : op7 entityPath7 { files := [(entityPath7, FileContent.table t7)], dirs := dirs7 }
    = .ok { files := [(entityPath7, FileContent.table t7)], dirs := dirs7 } := rfl

/-- C5: under the `KEEP` strategy, per-entity conflict resolution performs no
filesystem write for any entity: for every root, configuration, filesystem
state (destination present or absent), entity and payload writer,
`_merge_entity` returns the filesystem unchanged — no payload write and no
metadata sidecar merge, even when the destination file is absent. -/
theorem C5_keep_never_writes :
    ∀ (root : PyPath) (cfg : BidsConfig) (fs : FS) (e : BidsEntity)
      (op : PyPath → FS → WriteResult),
      merge_entity root cfg MergeStrategy.KEEP fs e op = .ok fs :=
  fun _ _ _ _ _ => rfl

/-- C9: the default configuration has `include_sessions = False`, and the
destination path computed for an entity is independent of its `session_id`:
changing only the session id of any entity leaves `relative_entity_path`
unchanged, so no session folder appears and the session id never reaches the
filename. -/
theorem C9_session_id_independence :
    BidsConfig.default.include_sessions = false
    ∧ ∀ (e : BidsEntity) (s : Option String),
        BidsConfig.default.relative_entity_path { e with session_id := s }
          = BidsConfig.default.relative_entity_path e :=
  ⟨rfl, fun _ _ => rfl⟩

/-- C2 counterexample: `BidsEntity` is a plain dataclass without payload
validation, so an entity with both a file reference and tabular data set is
constructed without any error, and on it `is_file_resource()` and
`is_tabular_data()` are both true — the predicates are not mutually
exclusive, contradicting the claim. -/
theorem C2_counterexample :
    eBoth.is_file_resource = true ∧ eBoth.is_tabular_data = true :=
  ⟨rfl, rfl⟩

/-- C2 amended: constructing a `BidsEntity` performs no payload validation
(any combination of file reference and tabular data is accepted without
error); `is_file_resource()` / `is_tabular_data()` simply report whether the
respective field is set, and every entity created through `BidsBuilder.add`
has exactly one payload set, so on those entities the two predicates are
mutually exclusive and exhaustive. -/
theorem C2_amended_no_payload_validation :
    (∀ e : BidsEntity,
        e.is_file_resource = e.file_path.isSome
        ∧ e.is_tabular_data = e.tabular_data.isSome)
    ∧ ∀ (sid dt tn sfx : String) (r : BidsResource) (rid sess : Option String)
        (md : Option (List (String × String))),
        exactlyOnePayload (mkEntityFromAdd sid dt tn sfx r rid sess md) := by
  refine ⟨fun e => ⟨rfl, rfl⟩, fun sid dt tn sfx r rid sess md => ?_⟩
  cases r with
  | file p => exact Or.inl ⟨rfl, rfl⟩
  | table t => exact Or.inr ⟨rfl, rfl⟩

/-- C3: evaluation of the code at the failing input.  `BidsBuilder.__init__`
uses mutable default arguments, so the default entity list is one shared
object: after `BidsBuilder()` (first builder) receives one `add` call, a
second, freshly constructed no-argument `BidsBuilder()` already holds that
entity — its `build()` yields a model with one entity although the second
builder received zero `add` calls, contradicting the claim that a fresh
no-argument builder starts with zero entities. -/
theorem C3_shared_default_builder_state :
    (BuilderHeap.build
        (BuilderHeap.add builderHeap0 builderInitDefault "S01" "beh" "draw" ".tsv"
          (.table t3) none none none)
        builderInitDefault).entities.length = 1 := rfl

/-- C1: evaluation of the code at the failing input.  In `_merge_entity` the
`if/elif` chain has no branch for a `NO_MERGE` strategy whose destination
does not exist: the conflict test fails, every other strategy test fails, and
the final `else` raises `ValueError("Unknown merge strategy ...")`.  So (1)
per-entity resolution under `NO_MERGE` with an absent destination errors
instead of behaving as `OVERWRITE`, although (2) `OVERWRITE` itself succeeds
on the same entity and filesystem, and (3) a whole-model `NO_MERGE` write
into an empty root fails with the same error instead of succeeding. -/
theorem C1_no_merge_absent_destination_raises_unknown_strategy :
    merge_entity ["bids"] BidsConfig.default MergeStrategy.NO_MERGE emptyFS e1 op1
        = .error (.unknownMergeStrategy MergeStrategy.NO_MERGE, emptyFS)
    ∧ (∃ fs', merge_entity ["bids"] BidsConfig.default MergeStrategy.OVERWRITE emptyFS e1 op1
        = .ok fs')
    ∧ (∃ fs', w1.write emptyFS
        = .error (.unknownMergeStrategy MergeStrategy.NO_MERGE, fs')) :=
  ⟨rfl, ⟨_, rfl⟩, ⟨_, rfl⟩⟩

/-- C4 counterexample: in the end-to-end `OVERWRITE` scenario (subject "S01",
datatype "beh", task "draw", suffix ".tsv") the write succeeds, but no file
exists at the claimed path `root/sub-S01/beh/sub-S01_task-draw.tsv`: the
default entity formatter joins the suffix to the name parts with an
underscore, so the claimed filename is never produced. -/
theorem C4_counterexample :
    ∃ fs, w4.write emptyFS = .ok (fs, true)
      ∧ fs.readFile ["root", "sub-S01", "beh", "sub-S01_task-draw.tsv"] = none :=
  ⟨_, rfl, rfl⟩

/-- C4 amended: writing the one-tabular-entity model (subject "S01", datatype
"beh", task "draw", suffix ".tsv") with `OVERWRITE` and the default
configuration to an empty root succeeds and produces the file
`root/sub-S01/beh/sub-S01_task-draw_.tsv` (the default formatter joins the
suffix with an underscore) holding the table, whose tab-separated
serialization is the header line and the two data rows with no index column,
and leaves `root/dataset_description.json` and `root/participants.tsv` both
present. -/
theorem C4_amended_end_to_end_overwrite :
    ∃ fs, w4.write emptyFS = .ok (fs, true)
      ∧ fs.readFile ["root", "sub-S01", "beh", "sub-S01_task-draw_.tsv"]
          = some (.table t4)
      ∧ tableToTsv t4 = "col_a\tcol_b\nr1a\tr1b\nr2a\tr2b\n"
      ∧ (fs.readFile ["root", "dataset_description.json"]).isSome = true
      ∧ (fs.readFile ["root", "participants.tsv"]).isSome = true :=
  ⟨_, rfl, rfl, rfl, rfl, rfl⟩

/-- C7: an `OVERWRITE` per-entity write with metadata `m1` followed by a
second `OVERWRITE` write of the same entity path with metadata `m2` (keys of
`m2` distinct, as in a Python dict) leaves the JSON sidecar at that path
containing exactly the key-wise union of `m1` and `m2` with `m2` winning on
every shared key: for every key, the stored value is `m2`'s when present and
otherwise `m1`'s — JSON-merge reads the existing object if present and
shallow-merges the new keys over it, new values winning. -/
theorem C7_overwrite_metadata_union (m1 m2 : List (String × String)) (k : String)
    (hnd : nodupKeys m2) :
    ∃ fs1 fs2,
      merge_entity ["bids"] BidsConfig.default MergeStrategy.OVERWRITE emptyFS (e7 m1) op7
          = .ok fs1
      ∧ merge_entity ["bids"] BidsConfig.default MergeStrategy.OVERWRITE fs1 (e7 m2) op7
          = .ok fs2
      ∧ jsonLookup fs2 sidecar7 k = orFirst (dictGet m2 k) (dictGet m1 k) := by
  cases m1 with
  | nil =>
    cases m2 with
    | nil =>
      exact ⟨{ files := [(entityPath7, .table t7)], dirs := dirs7 },
             { files := [(entityPath7, .table t7)], dirs := dirs7 }, rfl, rfl, rfl⟩
    | cons kv2 m2' =>
      refine ⟨{ files := [(entityPath7, .table t7)], dirs := dirs7 },
              { files := [(sidecar7, .json (kv2 :: m2')), (entityPath7, .table t7)], dirs := dirs7 },
              rfl, ?_, ?_⟩
      · rw [merge_entity_eq_overwrite, e7_path, e7_mpath, ensure7_nosc, op7_nosc]
        exact mj7_fresh kv2 m2'
      · rw [show dictGet ([] : List (String × String)) k = none from rfl, orFirst_none_right]
        rfl
  | cons kv1 m1' =>
    cases m2 with
    | nil =>
      refine ⟨{ files := [(sidecar7, .json (kv1 :: m1')), (entityPath7, .table t7)], dirs := dirs7 },
              { files := [(entityPath7, .table t7), (sidecar7, .json (kv1 :: m1'))], dirs := dirs7 },
              ?_, ?_, ?_⟩
      · rw [merge_entity_eq_overwrite, e7_path, e7_mpath, ensure7_empty, op7_fresh]
        exact mj7_fresh kv1 m1'
      · rw [merge_entity_eq_overwrite, e7_path, ensure7_again, op7_again]
        rfl
      · rfl
    | cons kv2 m2' =>
      refine ⟨{ files := [(sidecar7, .json (kv1 :: m1')), (entityPath7, .table t7)], dirs := dirs7 },
              { files := [(sidecar7, .json (dictUpdate (kv1 :: m1') (kv2 :: m2'))),
                          (entityPath7, .table t7)], dirs := dirs7 },
              ?_, ?_, ?_⟩
      · rw [merge_entity_eq_overwrite, e7_path, e7_mpath, ensure7_empty, op7_fresh]
        exact mj7_fresh kv1 m1'
      · rw [merge_entity_eq_overwrite, e7_path, e7_mpath, ensure7_again, op7_again]
        exact mj7_again (kv1 :: m1') kv2 m2'
      · rw [show jsonLookup
              { files := [(sidecar7, FileContent.json (dictUpdate (kv1 :: m1') (kv2 :: m2'))),
                          (entityPath7, FileContent.table t7)], dirs := dirs7 } sidecar7 k
            = dictGet (dictUpdate (kv1 :: m1') (kv2 :: m2')) k from rfl]
        exact dictGet_dictUpdate (kv1 :: m1') (kv2 :: m2') hnd k

/-- Witness for C7: at `m1 = [(a,1),(b,2)]`, `m2 = [(b,3),(c,4)]` and key
`b`, the nodup-keys hypothesis is discharged by computation and the theorem
yields the two successful writes and the merged sidecar value. -/
theorem C7_overwrite_metadata_union_witness :
    ∃ fs1 fs2,
      merge_entity ["bids"] BidsConfig.default MergeStrategy.OVERWRITE emptyFS
          (e7 [("a", "1"), ("b", "2")]) op7 = .ok fs1
      ∧ merge_entity ["bids"] BidsConfig.default MergeStrategy.OVERWRITE fs1
          (e7 [("b", "3"), ("c", "4")]) op7 = .ok fs2
      ∧ jsonLookup fs2 sidecar7 "b"
          = orFirst (dictGet [("b", "3"), ("c", "4")] "b")
              (dictGet [("a", "1"), ("b", "2")] "b") :=
  C7_overwrite_metadata_union [("a", "1"), ("b", "2")] [("b", "3"), ("c", "4")] "b"
    (by decide)

theorem self_mem_pathPrefixes (p : PyPath) : p ∈ pathPrefixes p := by
  induction p with
  | nil => simp [pathPrefixes]
  | cons x xs ih =>
    simp only [pathPrefixes, List.mem_cons]
    exact Or.inr (List.mem_map.mpr ⟨xs, ih, rfl⟩)

theorem existsPath_mkdirParents_self (fs : FS) (p : PyPath) :
    (fs.mkdirParents p).existsPath p = true := by
  unfold FS.existsPath FS.mkdirParents
  simp only [Bool.or_eq_true, List.any_eq_true]
  right
  exact ⟨p, List.mem_append_left _ (self_mem_pathPrefixes p), by simp⟩

/-- C6: at the start of every whole-model write (any writer whose model
resolves), the root directory is created together with its parents (it exists
after the `mkdir` step); when the root is non-empty the write fails with the
merge-strategy-required error under the `UNKNOWN_MERGE` sentinel and with the
root-not-empty error under `NO_MERGE`; and under every other strategy the
write proceeds past this check, continuing with the post-check body on the
root-created filesystem. -/
theorem C6_root_check (w : BidsWriter) (fs : FS) (bids : BidsModel)
    (h : w.resolveBids = .ok bids) :
    (fs.mkdirParents w.bids_root).existsPath w.bids_root = true
    ∧ ((fs.mkdirParents w.bids_root).nonEmptyDir w.bids_root = true →
        w.entity_merge_strategy = MergeStrategy.UNKNOWN_MERGE →
        w.write fs = .error (.mergeStrategyRequired, fs.mkdirParents w.bids_root))
    ∧ ((fs.mkdirParents w.bids_root).nonEmptyDir w.bids_root = true →
        w.entity_merge_strategy = MergeStrategy.NO_MERGE →
        w.write fs = .error (.rootNotEmpty, fs.mkdirParents w.bids_root))
    ∧ (w.entity_merge_strategy ≠ MergeStrategy.UNKNOWN_MERGE →
        w.entity_merge_strategy ≠ MergeStrategy.NO_MERGE →
        w.write fs = writeAfterRootCheck w.bids_root w.config w.entity_merge_strategy bids
          (fs.mkdirParents w.bids_root)) := by
  refine ⟨existsPath_mkdirParents_self fs w.bids_root, ?_, ?_, ?_⟩
  · intro h2 hstrat
    simp [BidsWriter.write, h, confirmRoot, h2, hstrat]
  · intro h2 hstrat
    simp [BidsWriter.write, h, confirmRoot, h2, hstrat]
  · intro hs1 hs2
    unfold BidsWriter.write
    rw [h]
    unfold confirmRoot
    by_cases h2 : (fs.mkdirParents w.bids_root).nonEmptyDir w.bids_root = true
    · simp [h2, hs1, hs2]
    · simp [h2]

/-- Witness for C6: a writer with the `UNKNOWN_MERGE` sentinel and a root
that already contains a file; its resolving model is discharged by `rfl` and
the theorem yields the merge-strategy-required failure. -/
theorem C6_root_check_witness :
    w6w.write fs6w = .error (.mergeStrategyRequired, fs6w.mkdirParents w6w.bids_root) :=
  (C6_root_check w6w fs6w { entities := [], dataset_description := [] } rfl).2.1 rfl rfl

theorem returnsTrue_writeAfterRootCheck (root : PyPath) (cfg : BidsConfig)
    (strat : MergeStrategy) (bids : BidsModel) (fs : FS) :
    returnsTrue (writeAfterRootCheck root cfg strat bids fs) = true := by
  unfold writeAfterRootCheck
  split
  · rfl
  · split
    · rfl
    · split
      · rfl
      · rfl

/-- C10: `__exit__` ignores all three exception arguments and unconditionally
invokes `write()`, returning its result unchanged; and every successful
`write()` returns `True`.  Hence exiting the context manager performs the
full write and reports `True` even when an exception was raised inside the
`with` block, so (by Python context-manager semantics, where a truthy
`__exit__` result suppresses the exception) such exceptions are suppressed
whenever the write succeeds. -/
theorem C10_exit_ignores_exception_and_returns_write :
    (∀ (w : BidsWriter) (a b c : Option String) (fs : FS),
        w.exitCM a b c fs = w.write fs)
    ∧ (∀ (w : BidsWriter) (fs : FS), returnsTrue (w.write fs) = true) := by
  refine ⟨fun w a b c fs => rfl, fun w fs => ?_⟩
  unfold BidsWriter.write
  split
  · rfl
  · split
    · rfl
    · exact returnsTrue_writeAfterRootCheck _ _ _ _ _

theorem merge_entity_rename (root : PyPath) (cfg : BidsConfig) (fs : FS)
    (e : BidsEntity) (op : PyPath → FS → WriteResult) :
    merge_entity root cfg MergeStrategy.RENAME_ENTITIES fs e op
      = .error (.notImplemented renameEntitiesMsg, fs) := rfl

theorem merge_entity_new_session (root : PyPath) (cfg : BidsConfig) (fs : FS)
    (e : BidsEntity) (op : PyPath → FS → WriteResult) :
    merge_entity root cfg MergeStrategy.NEW_SESSION fs e op
      = .error (.notImplemented newSessionMsg, fs) := rfl

theorem writeEntity_rename (root : PyPath) (cfg : BidsConfig) (fs : FS) (e : BidsEntity)
    (he : e.file_path.isSome = true ∨ e.tabular_data.isSome = true) :
    writeEntity root cfg MergeStrategy.RENAME_ENTITIES fs e
      = .error (.notImplemented renameEntitiesMsg, fs) := by
  unfold writeEntity
  cases hfp : e.file_path with
  | some fp => exact merge_entity_rename root cfg fs e _
  | none =>
    cases htb : e.tabular_data with
    | some tb => exact merge_entity_rename root cfg fs e _
    | none =>
      rw [hfp, htb] at he
      simp at he

theorem foldl_entities_rename (root : PyPath) (cfg : BidsConfig) (fs : FS)
    (e : BidsEntity) (es : List BidsEntity)
    (he : e.file_path.isSome = true ∨ e.tabular_data.isSome = true) :
    List.foldlM (fun fs x => writeEntity root cfg MergeStrategy.RENAME_ENTITIES fs x) fs (e :: es)
      = .error (.notImplemented renameEntitiesMsg, fs) := by
  rw [List.foldlM_cons, writeEntity_rename root cfg fs e he]
  rfl

/-- Writer over root `bids` with the `RENAME_ENTITIES` strategy, the default
configuration, and the given prebuilt model. -/
def renameWriter (es : List BidsEntity) (dd : List (String × String)) : BidsWriter :=
  { bids_root := ["bids"], entity_merge_strategy := .RENAME_ENTITIES,
    bids := some { entities := es, dataset_description := dd } }

theorem renameWriter_write (e : BidsEntity) (es : List BidsEntity)
    (dd : List (String × String)) (fs fsA fsB fsC : FS)
    (he : e.file_path.isSome = true ∨ e.tabular_data.isSome = true)
    (hcr : confirmRoot ["bids"] MergeStrategy.RENAME_ENTITIES fs = .ok fsA)
    (hdd : writeDatasetDescription ["bids"] BidsConfig.default
        { entities := e :: es, dataset_description := dd } fsA = .ok fsB)
    (hpp : writeParticipants ["bids"] BidsConfig.default
        { entities := e :: es, dataset_description := dd } fsB = .ok fsC) :
    (renameWriter (e :: es) dd).write fs
      = .error (.notImplemented renameEntitiesMsg, fsC) := by
  have hres : (renameWriter (e :: es) dd).resolveBids
      = .ok { entities := e :: es, dataset_description := dd } := rfl
  simp only [BidsWriter.write, hres]
  simp only [renameWriter]
  simp only [hcr, writeAfterRootCheck, hdd, hpp]
  rw [foldl_entities_rename ["bids"] BidsConfig.default fsC e es he]

/-- C8: per-entity conflict resolution under `RENAME_ENTITIES` or
`NEW_SESSION` fails with the corresponding `NotImplementedError` for every
root, configuration, filesystem state (destination present or absent), entity
and payload writer; consequently two successive whole-model writes of the
same model (whose first entity carries a payload) to the same root under
`RENAME_ENTITIES` both fail with that error — the second write fails
identically on the filesystem state the first failing write left behind. -/
theorem C8_rename_new_session_not_supported :
    (∀ (root : PyPath) (cfg : BidsConfig) (fs : FS) (e : BidsEntity)
        (op : PyPath → FS → WriteResult),
        merge_entity root cfg MergeStrategy.RENAME_ENTITIES fs e op
          = .error (.notImplemented renameEntitiesMsg, fs))
    ∧ (∀ (root : PyPath) (cfg : BidsConfig) (fs : FS) (e : BidsEntity)
        (op : PyPath → FS → WriteResult),
        merge_entity root cfg MergeStrategy.NEW_SESSION fs e op
          = .error (.notImplemented newSessionMsg, fs))
    ∧ ∀ (e : BidsEntity) (es : List BidsEntity) (dd : List (String × String)),
        e.file_path.isSome = true ∨ e.tabular_data.isSome = true →
        ∃ fs1 fs2,
          (renameWriter (e :: es) dd).write emptyFS
            = .error (.notImplemented renameEntitiesMsg, fs1)
          ∧ (renameWriter (e :: es) dd).write fs1
            = .error (.notImplemented renameEntitiesMsg, fs2) := by
  refine ⟨merge_entity_rename, merge_entity_new_session, fun e es dd he => ?_⟩
  exact ⟨_, _, renameWriter_write e es dd emptyFS _ _ _ he rfl rfl rfl,
         renameWriter_write e es dd _ _ _ _ he rfl rfl rfl⟩

/-- Witness for C8: the one-entity model with tabular entity `e8w`; its
payload hypothesis is discharged by computation, and both successive
`RENAME_ENTITIES` writes fail with the not-implemented error. -/
theorem C8_rename_new_session_not_supported_witness :
    ∃ fs1 fs2,
      (renameWriter [e8w] [("Name", "X")]).write emptyFS
        = .error (.notImplemented renameEntitiesMsg, fs1)
      ∧ (renameWriter [e8w] [("Name", "X")]).write fs1
        = .error (.notImplemented renameEntitiesMsg, fs2) :=
  C8_rename_new_session_not_supported.2.2 e8w [] [("Name", "X")] (Or.inr rfl)
